import Mathlib

/-
  Verification development for the DarkModeDetector content script
  (class DarkModeDetector: detect, checkLocalStorage, checkDOMAttributes,
  checkClassNames, checkLibrarySignatures, checkToggleButtons,
  checkCSSCustomProperties, checkPrefersColorScheme, checkColorSchemeProperty,
  checkTailwindDarkClasses, isDarkColor, isLightColor, getLuminance,
  calculateConfidence, getCurrentTheme, detectImplementationType,
  generateSummary, setupObserver, destroy).

  The JavaScript source is shallowly embedded: page state (storage, DOM
  attributes, class lists, selector hits, computed styles, the media-feature
  match) is an explicit structure; a storage read that may throw is modelled
  as `Option (Option String)` where `none` is a thrown access error,
  `some none` is a null result and `some (some v)` is a stored value.
  Numbers are exact rationals (the source's 0.299 etc. are written as the
  rationals 299/1000 ...; every comparison the development relies on is far
  from the float-rounding scale).  A JavaScript NaN luminance is the `nan`
  constructor of `LumVal`, with comparisons against NaN yielding false.
-/

namespace DarkMode

/-- Does the character list `p` occur as a prefix of `s`?
    (embeds JavaScript String.prototype.startsWith on the listed chars). -/
def startsWithChars : List Char → List Char → Bool
  | [], _ => true
  | _ :: _, [] => false
  | p :: ps, c :: cs => p == c && startsWithChars ps cs

/-- Does the character list `p` occur anywhere inside `s`?
    (embeds JavaScript String.prototype.includes). -/
def containsChars (p : List Char) : List Char → Bool
  | [] => startsWithChars p []
  | c :: cs => startsWithChars p (c :: cs) || containsChars p cs

/-- `includes` on strings, with an optional receiver (embeds `x?.includes(p)`,
    which is falsy when the receiver is absent). -/
def jsIncludes (s : String) (p : String) : Bool :=
  containsChars p.data s.data

/-- Value of one hexadecimal digit, as accepted by `parseInt(-, 16)`. -/
def hexDigitVal (c : Char) : Option ℕ :=
  if '0' ≤ c ∧ c ≤ '9' then some (c.toNat - 48)
  else if 'a' ≤ c ∧ c ≤ 'f' then some (c.toNat - 87)
  else if 'A' ≤ c ∧ c ≤ 'F' then some (c.toNat - 55)
  else none

/-- Fold a run of hexadecimal digits into a number. -/
def hexDigitsToNat (ds : List Char) : ℕ :=
  ds.foldl (fun a c => 16 * a + ((hexDigitVal c).getD 0)) 0

/-- Embeds JavaScript `parseInt(s, 16)`: skip leading whitespace, an optional
    sign, an optional `0x`/`0X` prefix, then the longest run of hex digits;
    `none` models the NaN result when no digit is found. -/
def jsParseIntHex (s : List Char) : Option ℤ :=
  let s1 := s.dropWhile Char.isWhitespace
  let signAndRest : ℤ × List Char :=
    match s1 with
    | '-' :: r => (-1, r)
    | '+' :: r => (1, r)
    | _ => (1, s1)
  let s2 :=
    match signAndRest.2 with
    | '0' :: 'x' :: r => r
    | '0' :: 'X' :: r => r
    | _ => signAndRest.2
  let ds := s2.takeWhile (fun c => (hexDigitVal c).isSome)
  if ds.isEmpty then none
  else some (signAndRest.1 * (hexDigitsToNat ds : ℤ))

/-- A JavaScript number that is either an actual (rational) value or NaN. -/
inductive LumVal where
  | num (q : ℚ)
  | nan
deriving DecidableEq, Repr

/-- The luminance formula of `getLuminance`:
    `(0.299 * r + 0.587 * g + 0.114 * b) / 255`. -/
def lumFormula (r g b : ℚ) : ℚ :=
  (299 / 1000 * r + 587 / 1000 * g + 114 / 1000 * b) / 255

/-- Take the maximal run of decimal digits (the regex `\d+`); fails on the
    empty run.  Returns the parsed number and the rest of the input. -/
def takeDigitsNum (cs : List Char) : Option (ℕ × List Char) :=
  let ds := cs.takeWhile Char.isDigit
  if ds.isEmpty then none
  else some (ds.foldl (fun a c => 10 * a + (c.toNat - 48)) 0, cs.drop ds.length)

/-- Match the regex `rgb\((\d+),\s*(\d+),\s*(\d+)\)` anchored at the head of
    the input. -/
def matchRgbAt (cs : List Char) : Option (ℕ × ℕ × ℕ) :=
  match cs with
  | 'r' :: 'g' :: 'b' :: '(' :: rest =>
    match takeDigitsNum rest with
    | none => none
    | some (r, rest1) =>
      match rest1 with
      | ',' :: rest2 =>
        match takeDigitsNum (rest2.dropWhile Char.isWhitespace) with
        | none => none
        | some (g, rest4) =>
          match rest4 with
          | ',' :: rest5 =>
            match takeDigitsNum (rest5.dropWhile Char.isWhitespace) with
            | none => none
            | some (b, rest7) =>
              match rest7 with
              | ')' :: _ => some (r, g, b)
              | _ => none
          | _ => none
      | _ => none
  | _ => none

/-- Search `rgb\((\d+),\s*(\d+),\s*(\d+)\)` anywhere in the input
    (embeds `color.match(...)` which scans the whole string). -/
def searchRgb : List Char → Option (ℕ × ℕ × ℕ)
  | [] => none
  | c :: cs =>
    match matchRgbAt (c :: cs) with
    | some t => some t
    | none => searchRgb cs

/-- The 6-digit-hex branch of `getLuminance`: when the input starts with `#`
    and has exactly six following characters it always returns from this
    branch, with NaN when a `parseInt` slice yields NaN. -/
def hexAttempt (cs : List Char) : Option LumVal :=
  if startsWithChars ['#'] cs then
    let hex := cs.drop 1
    if hex.length = 6 then
      some (match jsParseIntHex (hex.take 2),
                  jsParseIntHex ((hex.drop 2).take 2),
                  jsParseIntHex ((hex.drop 4).take 2) with
        | some r, some g, some b => .num (lumFormula (r : ℚ) (g : ℚ) (b : ℚ))
        | _, _, _ => .nan)
    else none
  else none

/-- The `rgb(` branch of `getLuminance`. -/
def rgbAttempt (cs : List Char) : Option LumVal :=
  if startsWithChars ['r', 'g', 'b'] cs then
    match searchRgb cs with
    | some (r, g, b) => some (.num (lumFormula (r : ℚ) (g : ℚ) (b : ℚ)))
    | none => none
  else none

/-- Embeds `DarkModeDetector.getLuminance`: empty string is falsy and yields
    0; then the hex branch, then the rgb branch, else 0. -/
def getLuminance (color : String) : LumVal :=
  let cs := color.data
  if cs.isEmpty then .num 0
  else
    match hexAttempt cs with
    | some v => v
    | none =>
      match rgbAttempt cs with
      | some v => v
      | none => .num 0

/-- Embeds `isDarkColor`: `getLuminance(color) < 0.5`
    (false when the luminance is NaN, as in JavaScript). -/
def isDarkColor (color : String) : Bool :=
  match getLuminance color with
  | .num q => decide (q < 1 / 2)
  | .nan => false

/-- Embeds `isLightColor`: `getLuminance(color) > 0.5`. -/
def isLightColor (color : String) : Bool :=
  match getLuminance color with
  | .num q => decide (1 / 2 < q)
  | .nan => false

/-- One detected piece of evidence, as pushed onto `this.signals`.
    `confidence` is the tier string of the source (`"very-high"`, `"high"`,
    `"medium"`, `"low"`); `attr` and `name` embed the payload fields the
    source later reads back (`signal.attribute`, `signal.name`; `attribute`
    is a Lean keyword, hence the shorter field name); every other
    kind-specific payload field is kept in `extra` as key/value pairs. -/
structure Signal where
  type : String
  confidence : String
  weight : ℕ
  attr : Option String
  name : Option String
  extra : List (String × String)
deriving DecidableEq, Repr

/-- The object returned by `generateSummary`.  `mediumSignals`/`lowSignals`
    are present in the content-script version being verified. -/
structure Summary where
  totalSignals : ℕ
  criticalSignals : ℕ
  highSignals : ℕ
  mediumSignals : ℕ
  lowSignals : ℕ
  implementationTypes : List String
  detectedLibraries : List String
deriving DecidableEq, Repr

/-- The object returned by `detect`.  The `timestamp` and `url` fields of the
    source are clock/location metadata of the host environment and are not
    part of the embedded page state. -/
structure DetectionResult where
  hasDarkMode : Bool
  confidence : String
  currentTheme : String
  implementation : List String
  signals : List Signal
  summary : Summary
deriving DecidableEq, Repr

/-- The inspected page state.  `storage key` is `none` when
    `localStorage.getItem(key)` throws (cross-origin denial), `some none`
    when it returns null, `some (some v)` when it returns the string `v`.
    `queryHit sel` tells whether `document.querySelector(sel)` finds a node;
    `cssBackground`/`cssTextColor` are the raw values of
    `getComputedStyle(html).getPropertyValue('--background'/'--text-color')`;
    `colorScheme` is `style.colorScheme` with `none` for an absent property
    (the source guards it with `?.`); `elementClasses` lists the class list
    of every element of the document in document order. -/
structure PageState where
  storage : String → Option (Option String)
  htmlAttr : String → Option String
  bodyAttr : String → Option String
  htmlClasses : List String
  bodyClasses : List String
  queryHit : String → Bool
  darkReaderGlobal : Bool
  cssBackground : String
  cssTextColor : String
  colorScheme : Option String
  prefersDark : Bool
  elementClasses : List (List String)

/-- The key list of `checkLocalStorage`. -/
def storageKeys : List String :=
  ["theme", "darkMode", "dark-mode", "color-scheme", "vueuse-color-scheme",
   "vite-ui-theme", "my-theme"]

/-- One iteration of the `checkLocalStorage` loop: the signal pushed for one
    key, if any.  A thrown read (`none`) is caught and produces nothing. -/
def storageRuleSignal (store : String → Option (Option String)) (key : String) :
    Option Signal :=
  match store key with
  | some (some v) =>
    if v == "dark" || v == "enabled" || v == "true" then
      some ⟨"localStorage", "very-high", 4, none, none, [("key", key), ("value", v)]⟩
    else none
  | _ => none

/-- Embeds `checkLocalStorage`. -/
def checkLocalStorage (ps : PageState) : List Signal :=
  storageKeys.filterMap (storageRuleSignal ps.storage)

/-- The element/attribute/value triples of `checkDOMAttributes`
    (element tag, attribute, expected value), in source order. -/
def domAttributeChecks : List (String × String × String) :=
  [("html", "data-theme", "dark"),
   ("html", "data-theme", "light"),
   ("html", "data-bs-theme", "dark"),
   ("html", "data-mui-color-scheme", "dark"),
   ("html", "data-mode", "dark"),
   ("html", "color-mode", "dark"),
   ("body", "data-theme", "dark")]

/-- `element.getAttribute(attr)` for the two checked elements. -/
def attrOf (ps : PageState) (el : String) (attr : String) : Option String :=
  if el == "body" then ps.bodyAttr attr else ps.htmlAttr attr

/-- Embeds `checkDOMAttributes`. -/
def checkDOMAttributes (ps : PageState) : List Signal :=
  domAttributeChecks.filterMap fun c =>
    if attrOf ps c.1 c.2.1 == some c.2.2 then
      some ⟨"dom-attribute", "high", 3,
            some (c.2.1 ++ "=\"" ++ c.2.2 ++ "\""), none, [("element", c.1)]⟩
    else none

/-- The class-name list of `checkClassNames`. -/
def themeClassNames : List String :=
  ["dark", "light", "dark-mode", "light-mode", "dark-theme", "light-theme",
   "theme-dark", "theme-light"]

/-- The inner loop of `checkClassNames` for one element. -/
def classNameSignals (tag : String) (classes : List String) : List Signal :=
  themeClassNames.filterMap fun cn =>
    if classes.contains cn then
      some ⟨"class-name", "high", 3, none, none, [("className", cn), ("element", tag)]⟩
    else none

/-- Embeds `checkClassNames` (html element first, then body). -/
def checkClassNames (ps : PageState) : List Signal :=
  classNameSignals "html" ps.htmlClasses ++ classNameSignals "body" ps.bodyClasses

/-- Embeds `checkLibrarySignatures`. -/
def checkLibrarySignatures (ps : PageState) : List Signal :=
  (if ps.queryHit ".darkmode-layer, .darkmode-toggle" then
    [⟨"library", "very-high", 4, none, some "darkmode.js", []⟩]
  else []) ++
  (if ps.darkReaderGlobal || ps.queryHit "[class*=\"darkreader\"]" then
    [⟨"library", "very-high", 4, none, some "darkreader", []⟩]
  else [])

/-- The selector list of `checkToggleButtons`. -/
def toggleSelectors : List String :=
  ["[data-theme-toggle]", "[data-toggle-theme]", ".theme-toggle",
   ".theme-switch", ".theme-switcher", ".dark-mode-toggle",
   ".dark-mode-switch", "[aria-label*=\"dark\"]", "[aria-label*=\"light\"]",
   "[aria-label*=\"theme\"]"]

/-- Embeds `checkToggleButtons`. -/
def checkToggleButtons (ps : PageState) : List Signal :=
  toggleSelectors.filterMap fun sel =>
    if ps.queryHit sel then
      some ⟨"toggle-button", "high", 3, none, none, [("selector", sel)]⟩
    else none

/-- Embeds JavaScript `String.prototype.trim`: strip whitespace from both
    ends. -/
def jsTrim (s : String) : String :=
  ⟨((s.data.dropWhile Char.isWhitespace).reverse.dropWhile Char.isWhitespace).reverse⟩

/-- Embeds `checkCSSCustomProperties`: a non-empty trimmed `--background`
    that classifies dark, then a non-empty trimmed `--text-color` that
    classifies light. -/
def checkCSSCustomProperties (ps : PageState) : List Signal :=
  let bg := jsTrim ps.cssBackground
  let text := jsTrim ps.cssTextColor
  (if !(bg == "") && isDarkColor bg then
    [⟨"css-custom-property", "medium", 2, none, none,
      [("property", "--background"), ("value", bg)]⟩]
  else []) ++
  (if !(text == "") && isLightColor text then
    [⟨"css-custom-property", "medium", 2, none, none,
      [("property", "--text-color"), ("value", text)]⟩]
  else [])

/-- Embeds `checkPrefersColorScheme`: unconditionally pushes exactly one
    low-confidence weight-1 signal recording the media-feature match. -/
def checkPrefersColorScheme (ps : PageState) : List Signal :=
  [⟨"system-preference", "low", 1, none, none,
    [("prefersDark", if ps.prefersDark then "true" else "false")]⟩]

/-- Embeds `checkColorSchemeProperty`. -/
def checkColorSchemeProperty (ps : PageState) : List Signal :=
  match ps.colorScheme with
  | some s =>
    if jsIncludes s "dark" then
      [⟨"color-scheme-property", "medium", 2, none, none, [("value", s)]⟩]
    else []
  | none => []

/-- Embeds `checkTailwindDarkClasses`: scan every element's class list for a
    class starting with `dark:`; the signal records the first five such
    classes. -/
def checkTailwindDarkClasses (ps : PageState) : List Signal :=
  let darkClasses :=
    (ps.elementClasses.flatten.filter fun cls => startsWithChars "dark:".data cls.data)
  if !darkClasses.isEmpty then
    [⟨"tailwind-dark-classes", "very-high", 4, none, none,
      (darkClasses.take 5).map fun c => ("class", c)⟩]
  else []

/-- The nine checks of `detect`, concatenated in call order. -/
def collectSignals (ps : PageState) : List Signal :=
  checkLocalStorage ps ++ checkDOMAttributes ps ++ checkClassNames ps ++
  checkLibrarySignatures ps ++ checkToggleButtons ps ++
  checkCSSCustomProperties ps ++ checkPrefersColorScheme ps ++
  checkColorSchemeProperty ps ++ checkTailwindDarkClasses ps

/-- The running sum of `calculateConfidence`. -/
def totalWeight (sigs : List Signal) : ℕ :=
  sigs.foldl (fun sum s => sum + s.weight) 0

/-- The threshold cascade of `calculateConfidence`. -/
def confidenceOfTotal (w : ℕ) : String :=
  if 12 ≤ w then "very-high"
  else if 8 ≤ w then "high"
  else if 4 ≤ w then "medium"
  else "low"

/-- Embeds `calculateConfidence`. -/
def calculateConfidence (sigs : List Signal) : String :=
  confidenceOfTotal (totalWeight sigs)

/-- One iteration of the storage loop of `getCurrentTheme`: the value kept
    for one key, if any; a thrown read is caught and skipped. -/
def storageThemeValue (store : String → Option (Option String)) (key : String) :
    Option String :=
  match store key with
  | some (some v) => if v == "dark" || v == "light" then some v else none
  | _ => none

/-- The storage loop of `getCurrentTheme`: first key whose value is exactly
    `dark` or `light`. -/
def firstStorageTheme (store : String → Option (Option String)) :
    List String → Option String
  | [] => none
  | key :: rest =>
    match storageThemeValue store key with
    | some v => some v
    | none => firstStorageTheme store rest

/-- The priority key list of `getCurrentTheme`. -/
def themeKeys : List String := ["theme", "darkMode", "color-scheme"]

/-- The class fallback of `getCurrentTheme`. -/
def themeFromClasses (ps : PageState) : String :=
  if ps.htmlClasses.contains "dark" then "dark"
  else if ps.htmlClasses.contains "light" then "light"
  else "unknown"

/-- The `data-bs-theme` step of `getCurrentTheme`: a truthy (present,
    non-empty) attribute value is returned verbatim. -/
def themeFromBs (ps : PageState) : String :=
  match ps.htmlAttr "data-bs-theme" with
  | some v => if v == "" then themeFromClasses ps else v
  | none => themeFromClasses ps

/-- Embeds `getCurrentTheme`: storage keys, then a truthy `data-theme`, then
    a truthy `data-bs-theme`, then root classes, else `"unknown"`. -/
def getCurrentTheme (ps : PageState) : String :=
  match firstStorageTheme ps.storage themeKeys with
  | some v => v
  | none =>
    match ps.htmlAttr "data-theme" with
    | some v => if v == "" then themeFromBs ps else v
    | none => themeFromBs ps

/-- `Set.prototype.add` with JavaScript insertion order. -/
def addUnique (l : List String) (x : String) : List String :=
  if l.contains x then l else l ++ [x]

/-- `signal.attribute?.includes(p)` (falsy on an absent field). -/
def optIncludes (a : Option String) (p : String) : Bool :=
  match a with
  | some s => jsIncludes s p
  | none => false

/-- One iteration of the `detectImplementationType` loop. -/
def implStep (types : List String) (s : Signal) : List String :=
  let t1 := if s.type == "localStorage" then addUnique types "javascript" else types
  let t2 := if s.type == "dom-attribute" then addUnique t1 "custom" else t1
  let t3 := if s.type == "class-name" then addUnique t2 "tailwind-or-custom" else t2
  let t4 :=
    if s.type == "library" then
      match s.name with
      | some n => addUnique t3 n
      | none => t3
    else t3
  let t5 := if s.type == "tailwind-dark-classes" then addUnique t4 "tailwind" else t4
  let t6 :=
    if s.type == "dom-attribute" && optIncludes s.attr "bs-theme" then
      addUnique t5 "bootstrap"
    else t5
  if s.type == "dom-attribute" && optIncludes s.attr "mui-color-scheme" then
    addUnique t6 "material-ui"
  else t6

/-- Embeds `detectImplementationType` over a given signal list. -/
def detectImplementationType (sigs : List Signal) : List String :=
  sigs.foldl implStep []

/-- Embeds `generateSummary` over a given signal list. -/
def generateSummary (sigs : List Signal) : Summary :=
  ⟨sigs.length,
   (sigs.filter fun s => s.confidence == "very-high").length,
   (sigs.filter fun s => s.confidence == "high").length,
   (sigs.filter fun s => s.confidence == "medium").length,
   (sigs.filter fun s => s.confidence == "low").length,
   detectImplementationType sigs,
   (sigs.filter fun s => s.type == "library").filterMap fun s => s.name⟩

/-- Embeds `detect`: run the nine checks, then assemble the result
    (`hasDarkMode` is `signals.length > 0`). -/
def detect (ps : PageState) : DetectionResult :=
  let sigs := collectSignals ps
  ⟨decide (0 < sigs.length),
   calculateConfidence sigs,
   getCurrentTheme ps,
   detectImplementationType sigs,
   sigs,
   generateSummary sigs⟩

/-
  Change-Monitor model (`setupObserver` / `destroy`).

  The source observes a fixed target set with
  `attributeFilter: ['class','data-theme','data-mode','color-mode',
  'data-bs-theme','style']`; the handler reacts only when the mutated
  attribute is in the five-element list WITHOUT `'style'`, and then invokes
  the callback with the raw mutation and schedules `setTimeout(.., 100)`
  which re-runs `detect` and invokes the callback a second time.  `destroy`
  disconnects the observer (no further mutation deliveries) but never
  clears a scheduled timeout, so every already-scheduled re-detection still
  fires.  The event loop is modelled as a sequence of events processed by a
  step function; `pending` counts scheduled, not-yet-fired timeouts.
-/

/-- The `attributeFilter` passed to `observer.observe`. -/
def observerAttributeFilter : List String :=
  ["class", "data-theme", "data-mode", "color-mode", "data-bs-theme", "style"]

/-- The attribute list tested inside the mutation handler (note: no
    `"style"`). -/
def handlerAttrs : List String :=
  ["class", "data-theme", "data-mode", "color-mode", "data-bs-theme"]

/-- Monitor state: whether the observer is connected, and how many
    re-detection timeouts are scheduled but have not fired yet. -/
structure MonitorState where
  connected : Bool
  pending : ℕ
deriving DecidableEq, Repr

/-- A callback invocation: the immediate raw-mutation callback
    (`type: 'theme-change'`, with the attribute name and old/new values) or
    the delayed re-detection callback (`type: 'detection-update'`). -/
inductive CallbackEvent where
  | themeChange (attrName : String) (oldVal newVal : Option String)
  | detectionUpdate
deriving DecidableEq, Repr

/-- An event-loop event: an attribute mutation on a watched node, the firing
    of one scheduled timeout, or a `destroy()` call. -/
inductive MonEvent where
  | mutate (attr : String) (oldVal newVal : Option String)
  | fireTimeout
  | destroyEv
deriving DecidableEq, Repr

/-- One event-loop step.  A mutation is delivered only while connected and
    only for attributes in the observer filter; the handler then emits the
    raw callback and schedules a timeout only for attributes in its own
    list.  A timeout fires regardless of connectedness (`destroy` does not
    clear it).  `destroy` only disconnects (it also resets the internal
    signal scratch list, which carries no observable callback behaviour). -/
def monStep (s : MonitorState) : MonEvent → MonitorState × List CallbackEvent
  | .mutate attr oldVal newVal =>
    if s.connected && observerAttributeFilter.contains attr then
      if handlerAttrs.contains attr then
        (⟨s.connected, s.pending + 1⟩, [.themeChange attr oldVal newVal])
      else (s, [])
    else (s, [])
  | .fireTimeout =>
    match s.pending with
    | 0 => (s, [])
    | p + 1 => (⟨s.connected, p⟩, [.detectionUpdate])
  | .destroyEv => (⟨false, s.pending⟩, [])

/-- Run the event loop over an event list, collecting the callback trace. -/
def monRun (s : MonitorState) : List MonEvent → MonitorState × List CallbackEvent
  | [] => (s, [])
  | e :: rest =>
    ((monRun (monStep s e).1 rest).1,
     (monStep s e).2 ++ (monRun (monStep s e).1 rest).2)

/-
  Claim-side definitions: these follow the SPEC'S words, to be compared with
  the embedded source functions above (refinement targets and, for the
  corrected claims, the claim exactly as stated).
-/

/-- Follows the spec's words: the integer weight derived one-to-one from a
    confidence tier (very-high=4, high=3, medium=2, low=1). -/
def specTierWeight (conf : String) : ℕ :=
  if conf == "very-high" then 4
  else if conf == "high" then 3
  else if conf == "medium" then 2
  else if conf == "low" then 1
  else 0

/-- Follows the spec's words: apply the aggregation thresholds to a total
    weight from highest to lowest (≥12 very-high, ≥8 high, ≥4 medium,
    else low). -/
def specAggregate (total : ℕ) : String :=
  if 12 ≤ total then "very-high"
  else if 8 ≤ total then "high"
  else if 4 ≤ total then "medium"
  else "low"

/-- Rank of a confidence tier in the order low < medium < high < very-high
    used by the monotonicity claim. -/
def specTierRank (conf : String) : ℕ :=
  if conf == "very-high" then 3
  else if conf == "high" then 2
  else if conf == "medium" then 1
  else 0

/-- Step 1 of the resolver claim: a storage value under `theme`, `darkMode`,
    `color-scheme` that is exactly `dark` or `light` (a thrown or null read
    is not such a value). -/
def specStorageTheme (ps : PageState) : Option String :=
  themeKeys.findSome? fun key =>
    match ps.storage key with
    | some (some v) => if v == "dark" || v == "light" then some v else none
    | _ => none

/-- The Theme Resolver exactly as claim C5 states it: step 2 fires whenever
    the `data-theme` attribute is PRESENT (even with an empty value), and
    only falls to `data-bs-theme` when `data-theme` is absent. -/
def specResolverClaim (ps : PageState) : String :=
  match specStorageTheme ps with
  | some v => v
  | none =>
    match ps.htmlAttr "data-theme" with
    | some v => v
    | none =>
      match ps.htmlAttr "data-bs-theme" with
      | some v => v
      | none =>
        if ps.htmlClasses.contains "dark" then "dark"
        else if ps.htmlClasses.contains "light" then "light"
        else "unknown"

/-- A present, non-empty root attribute value. -/
def nonEmptyAttr (ps : PageState) (a : String) : Option String :=
  match ps.htmlAttr a with
  | some v => if v == "" then none else some v
  | none => none

/-- The Theme Resolver as amended: step 2 requires a NON-EMPTY `data-theme`
    value, else a non-empty `data-bs-theme` value, returned verbatim. -/
def specResolverAmended (ps : PageState) : String :=
  match specStorageTheme ps with
  | some v => v
  | none =>
    match (nonEmptyAttr ps "data-theme").or (nonEmptyAttr ps "data-bs-theme") with
    | some v => v
    | none =>
      if ps.htmlClasses.contains "dark" then "dark"
      else if ps.htmlClasses.contains "light" then "light"
      else "unknown"

/-
  Concrete page states used by counterexamples and witnesses.
-/

/-- A page with no theme evidence at all: storage reads return null, no
    attributes, no classes, no selector hits, empty computed styles, a
    light system preference. -/
def emptyPage : PageState :=
  ⟨fun _ => some none, fun _ => none, fun _ => none, [], [], fun _ => false,
   false, "", "", none, false, []⟩

/-- A page whose storage throws on every read (cross-origin denial). -/
def throwingPage : PageState :=
  ⟨fun _ => none, fun _ => none, fun _ => none, [], [], fun _ => false,
   false, "", "", none, false, []⟩

/-- A page whose root carries `data-theme=""` (present but empty) together
    with the root class `dark`. -/
def psEmptyDataTheme : PageState :=
  ⟨fun _ => some none,
   fun a => if a == "data-theme" then some "" else none,
   fun _ => none, ["dark"], [], fun _ => false,
   false, "", "", none, false, []⟩

/-- A page whose root carries `data-theme="banana"`. -/
def psBanana : PageState :=
  ⟨fun _ => some none,
   fun a => if a == "data-theme" then some "banana" else none,
   fun _ => none, [], [], fun _ => false,
   false, "", "", none, false, []⟩

/-- `ps` with the storage read of key `k` replaced by a null result. -/
def eraseStorageKey (ps : PageState) (k : String) : PageState :=
  ⟨fun k2 => if k2 == k then some none else ps.storage k2,
   ps.htmlAttr, ps.bodyAttr, ps.htmlClasses, ps.bodyClasses, ps.queryHit,
   ps.darkReaderGlobal, ps.cssBackground, ps.cssTextColor, ps.colorScheme,
   ps.prefersDark, ps.elementClasses⟩

/-- A single collected very-high signal (storage key `theme` = `dark`). -/
def exampleStorageSignal : Signal :=
  ⟨"localStorage", "very-high", 4, none, none, [("key", "theme"), ("value", "dark")]⟩

/-
  Helper lemmas shared by the claim theorems.
-/

theorem foldl_weight_sum (l : List Signal) (a : ℕ) :
    List.foldl (fun sum s => sum + s.weight) a l = a + (l.map fun s => s.weight).sum := by
  induction l generalizing a with
  | nil => simp
  | cons s t ih => simp [List.foldl, ih, Nat.add_assoc]

theorem totalWeight_eq_sum (l : List Signal) :
    totalWeight l = (l.map fun s => s.weight).sum := by
  simpa [totalWeight] using foldl_weight_sum l 0

theorem totalWeight_append_single (l : List Signal) (s : Signal) :
    totalWeight (l ++ [s]) = totalWeight l + s.weight := by
  simp [totalWeight_eq_sum]

theorem specTierRank_confidenceOfTotal (w : ℕ) :
    specTierRank (confidenceOfTotal w) =
      if 12 ≤ w then 3 else if 8 ≤ w then 2 else if 4 ≤ w then 1 else 0 := by
  by_cases h12 : 12 ≤ w <;> by_cases h8 : 8 ≤ w <;> by_cases h4 : 4 ≤ w <;>
    simp [confidenceOfTotal, specTierRank, h12, h8, h4]

theorem specTierRank_confidenceOfTotal_mono {a b : ℕ} (h : a ≤ b) :
    specTierRank (confidenceOfTotal a) ≤ specTierRank (confidenceOfTotal b) := by
  rw [specTierRank_confidenceOfTotal, specTierRank_confidenceOfTotal]
  split_ifs <;> omega

/-- Claim C1: the Confidence Aggregator returns the tier obtained by summing
    tier-derived weights (very-high=4, high=3, medium=2, low=1) and applying
    the thresholds ≥12 very-high, ≥8 high, ≥4 medium, else low; the empty
    list yields low, and a single very-high weight-4 signal yields medium. -/
theorem aggregator_matches_spec :
    (∀ sigs : List Signal, (∀ s ∈ sigs, s.weight = specTierWeight s.confidence) →
      calculateConfidence sigs =
        specAggregate ((sigs.map fun s => specTierWeight s.confidence).sum))
    ∧ calculateConfidence [] = "low"
    ∧ (∀ s : Signal, s.confidence = "very-high" → s.weight = 4 →
        calculateConfidence [s] = "medium") := by
  refine ⟨?_, rfl, ?_⟩
  · intro sigs h
    have hsum : totalWeight sigs = (sigs.map fun s => specTierWeight s.confidence).sum := by
      rw [totalWeight_eq_sum]
      exact congrArg List.sum (List.map_congr_left h)
    unfold calculateConfidence specAggregate confidenceOfTotal
    rw [hsum]
  · intro s hc hw
    simp [calculateConfidence, totalWeight, confidenceOfTotal, hw]

theorem aggregator_matches_spec_witness :
    calculateConfidence [exampleStorageSignal] = "medium" ∧
    calculateConfidence [exampleStorageSignal] =
      specAggregate (([exampleStorageSignal].map fun s => specTierWeight s.confidence).sum) :=
  ⟨aggregator_matches_spec.2.2 exampleStorageSignal rfl rfl,
   aggregator_matches_spec.1 [exampleStorageSignal] (by decide)⟩

/-- Claim C9: appending any signal to a signal list never decreases the
    aggregated confidence tier, in the order low < medium < high < very-high. -/
theorem aggregator_monotone (sigs : List Signal) (s : Signal) :
    specTierRank (calculateConfidence sigs) ≤
      specTierRank (calculateConfidence (sigs ++ [s])) := by
  unfold calculateConfidence
  apply specTierRank_confidenceOfTotal_mono
  rw [totalWeight_append_single]
  omega

/-- Claim C2: on every collection pass the system-preference rule emits
    exactly one low-confidence weight-1 signal regardless of the page state
    and of the media-feature match; hence the collected list is never empty,
    `hasDarkMode` (true iff the signal list is non-empty) is always true,
    and when no other rule fires the confidence tier is low. -/
theorem system_preference_always_fires (ps : PageState) :
    checkPrefersColorScheme ps =
      [⟨"system-preference", "low", 1, none, none,
        [("prefersDark", if ps.prefersDark then "true" else "false")]⟩]
    ∧ (detect ps).signals ≠ []
    ∧ (detect ps).hasDarkMode = true
    ∧ ((detect ps).hasDarkMode = true ↔ (detect ps).signals ≠ [])
    ∧ (checkLocalStorage ps = [] → checkDOMAttributes ps = [] →
       checkClassNames ps = [] → checkLibrarySignatures ps = [] →
       checkToggleButtons ps = [] → checkCSSCustomProperties ps = [] →
       checkColorSchemeProperty ps = [] → checkTailwindDarkClasses ps = [] →
       (detect ps).confidence = "low") := by
  have hlen : 0 < (collectSignals ps).length := by
    unfold collectSignals checkPrefersColorScheme
    simp
  have hne : (detect ps).signals ≠ [] := by
    show collectSignals ps ≠ []
    exact List.ne_nil_of_length_pos hlen
  have hdark : (detect ps).hasDarkMode = true := by
    show decide (0 < (collectSignals ps).length) = true
    exact decide_eq_true hlen
  refine ⟨rfl, hne, hdark, ⟨fun _ => hne, fun _ => hdark⟩, ?_⟩
  intro h1 h2 h3 h4 h5 h6 h7 h8
  have hcoll : collectSignals ps = checkPrefersColorScheme ps := by
    unfold collectSignals
    rw [h1, h2, h3, h4, h5, h6, h7, h8]
    simp
  show calculateConfidence (collectSignals ps) = "low"
  rw [hcoll]
  rfl

theorem system_preference_always_fires_witness :
    (detect emptyPage).confidence = "low" :=
  (system_preference_always_fires emptyPage).2.2.2.2 rfl rfl rfl rfl rfl rfl rfl rfl

theorem storageThemeValue_eq {store : String → Option (Option String)} {k v : String}
    (h : storageThemeValue store k = some v) : v = "dark" ∨ v = "light" := by
  unfold storageThemeValue at h
  rcases hsk : store k with _ | ov <;> rw [hsk] at h <;> simp at h
  rcases ov with _ | w <;> simp at h
  rcases h with ⟨hd, rfl⟩
  exact hd

theorem firstStorageTheme_eq {store : String → Option (Option String)} :
    ∀ {l : List String} {v : String},
      firstStorageTheme store l = some v → v = "dark" ∨ v = "light" := by
  intro l
  induction l with
  | nil => intro v h; simp [firstStorageTheme] at h
  | cons k rest ih =>
    intro v h
    unfold firstStorageTheme at h
    rcases hsv : storageThemeValue store k with _ | w
    · rw [hsv] at h; exact ih h
    · rw [hsv] at h
      simp at h
      rcases h with rfl
      exact storageThemeValue_eq hsv

theorem findSome_eq_firstStorage (store : String → Option (Option String)) :
    ∀ l : List String,
      (List.findSome? (fun key =>
        match store key with
        | some (some v) => if v == "dark" || v == "light" then some v else none
        | _ => none) l) = firstStorageTheme store l := by
  intro l
  induction l with
  | nil => rfl
  | cons k rest ih =>
    rcases hsk : store k with _ | ov
    · simpa [List.findSome?, firstStorageTheme, storageThemeValue, hsk] using ih
    · rcases ov with _ | w
      · simpa [List.findSome?, firstStorageTheme, storageThemeValue, hsk] using ih
      · by_cases hw : (w == "dark" || w == "light") = true
        · simp [List.findSome?, firstStorageTheme, storageThemeValue, hsk, hw]
        · simpa [List.findSome?, firstStorageTheme, storageThemeValue, hsk, hw] using ih

theorem themeFromClasses_cases (ps : PageState) :
    themeFromClasses ps = "dark" ∨ themeFromClasses ps = "light" ∨
      themeFromClasses ps = "unknown" := by
  unfold themeFromClasses
  split_ifs <;> simp

/-- Claim C5 fails as stated: on a page whose root carries `data-theme=""`
    (present but empty) and the class `dark`, the resolver described by the
    claim returns the empty attribute value verbatim, while the code treats
    the empty value as falsy, skips the attribute step and resolves `dark`
    from the root class. -/
theorem resolver_priority_counterexample :
    getCurrentTheme psEmptyDataTheme = "dark" ∧
    specResolverClaim psEmptyDataTheme = "" ∧
    getCurrentTheme psEmptyDataTheme ≠ specResolverClaim psEmptyDataTheme := by
  refine ⟨rfl, rfl, ?_⟩
  intro h
  exact absurd h (by decide)

/-- Claim C5 as amended: the resolver checks, in order, a storage value that
    is exactly dark/light under `theme`, `darkMode`, `color-scheme`; then a
    present NON-EMPTY `data-theme` value verbatim (else a present non-empty
    `data-bs-theme` value verbatim); then root class `dark`, then `light`;
    else `unknown`. -/
theorem resolver_matches_amended_spec (ps : PageState) :
    getCurrentTheme ps = specResolverAmended ps := by
  have hs : specStorageTheme ps = firstStorageTheme ps.storage themeKeys :=
    findSome_eq_firstStorage ps.storage themeKeys
  unfold getCurrentTheme specResolverAmended
  rw [hs]
  rcases firstStorageTheme ps.storage themeKeys with _ | v
  · unfold themeFromBs themeFromClasses nonEmptyAttr
    rcases hdt : ps.htmlAttr "data-theme" with _ | v
    · rcases hbs : ps.htmlAttr "data-bs-theme" with _ | w
      · simp [Option.or]
      · by_cases hw : (w == "") = true <;> simp [Option.or, hw]
    · by_cases hv : (v == "") = true
      · rcases hbs : ps.htmlAttr "data-bs-theme" with _ | w
        · simp [Option.or, hv]
        · by_cases hw : (w == "") = true <;> simp [Option.or, hv, hw]
      · simp [Option.or, hv]
  · simp

/-- Claim C7 fails as stated: with root attribute `data-theme="banana"` the
    detection result's `currentTheme` is the verbatim string `banana`, which
    is none of dark/light/unknown. -/
theorem currentTheme_codomain_counterexample :
    (detect psBanana).currentTheme = "banana" ∧
    ¬((detect psBanana).currentTheme = "dark" ∨
      (detect psBanana).currentTheme = "light" ∨
      (detect psBanana).currentTheme = "unknown") := by
  constructor
  · rfl
  · intro h
    have hb : (detect psBanana).currentTheme = "banana" := rfl
    rw [hb] at h
    rcases h with h | h | h <;> exact absurd h (by decide)

/-- Claim C7 as amended: `currentTheme` is always dark, light or unknown
    EXCEPT that a non-empty `data-theme` (else `data-bs-theme`) attribute
    value is returned verbatim, so in general `currentTheme` is one of
    {dark, light, unknown} or the verbatim value of one of those two root
    attributes. -/
theorem currentTheme_codomain_amended (ps : PageState) :
    ((detect ps).currentTheme = "dark" ∨ (detect ps).currentTheme = "light" ∨
      (detect ps).currentTheme = "unknown") ∨
    ps.htmlAttr "data-theme" = some ((detect ps).currentTheme) ∨
    ps.htmlAttr "data-bs-theme" = some ((detect ps).currentTheme) := by
  have hct : (detect ps).currentTheme = getCurrentTheme ps := rfl
  rw [hct]
  unfold getCurrentTheme
  rcases hf : firstStorageTheme ps.storage themeKeys with _ | v
  · unfold themeFromBs
    rcases hdt : ps.htmlAttr "data-theme" with _ | v
    · rcases hbs : ps.htmlAttr "data-bs-theme" with _ | w
      · exact Or.inl (themeFromClasses_cases ps)
      · by_cases hw : (w == "") = true
        · simpa [hw] using Or.inl (themeFromClasses_cases ps)
        · simp [hw]
    · by_cases hv : (v == "") = true
      · rcases hbs : ps.htmlAttr "data-bs-theme" with _ | w
        · simpa [hv] using Or.inl (themeFromClasses_cases ps)
        · by_cases hw : (w == "") = true
          · simpa [hv, hw] using Or.inl (themeFromClasses_cases ps)
          · simp [hv, hw]
      · simp [hv]
  · rcases firstStorageTheme_eq hf with h | h
    · exact Or.inl (Or.inl h)
    · exact Or.inl (Or.inr (Or.inl h))

/-
  Color-classifier lemmas (shared helpers, then claims C6 and C8).
  Concrete luminances are settled through these lemmas plus norm_num,
  since rational normalization does not reduce inside the kernel.
-/

theorem isDark_true_iff (c : String) (q : ℚ) (h : getLuminance c = .num q) :
    isDarkColor c = true ↔ q < 1 / 2 := by
  unfold isDarkColor
  rw [h]
  show decide (q < 1 / 2) = true ↔ q < 1 / 2
  exact decide_eq_true_iff

theorem isLight_true_iff (c : String) (q : ℚ) (h : getLuminance c = .num q) :
    isLightColor c = true ↔ 1 / 2 < q := by
  unfold isLightColor
  rw [h]
  show decide (1 / 2 < q) = true ↔ 1 / 2 < q
  exact decide_eq_true_iff

theorem classify_of_nan (c : String) (h : getLuminance c = .nan) :
    isDarkColor c = false ∧ isLightColor c = false := by
  unfold isDarkColor isLightColor
  rw [h]
  exact ⟨rfl, rfl⟩

theorem classify_zero (c : String) (h : getLuminance c = .num 0) :
    isDarkColor c = true ∧ isLightColor c = false := by
  constructor
  · unfold isDarkColor
    rw [h]
    exact decide_eq_true (by norm_num)
  · unfold isLightColor
    rw [h]
    exact decide_eq_false (by norm_num)

theorem luminance_unprefixed (c : String)
    (h1 : startsWithChars ['#'] c.data = false)
    (h2 : startsWithChars ['r', 'g', 'b'] c.data = false) :
    getLuminance c = .num 0 := by
  unfold getLuminance hexAttempt rgbAttempt
  simp [h1, h2]

theorem getLum_hex_formula (s : String) (c1 c2 c3 c4 c5 c6 : Char) (r g b : ℤ)
    (hs : s.data = '#' :: [c1, c2, c3, c4, c5, c6])
    (hr : jsParseIntHex [c1, c2] = some r)
    (hg : jsParseIntHex [c3, c4] = some g)
    (hb : jsParseIntHex [c5, c6] = some b) :
    getLuminance s =
      .num ((299 / 1000 * (r : ℚ) + 587 / 1000 * (g : ℚ) + 114 / 1000 * (b : ℚ)) / 255) := by
  unfold getLuminance hexAttempt
  rw [hs]
  simp [startsWithChars, hr, hg, hb, lumFormula]

theorem getLum_rgb_formula (s : String) (rest : List Char) (r g b : ℕ)
    (hs : s.data = 'r' :: 'g' :: 'b' :: rest)
    (hm : searchRgb s.data = some (r, g, b)) :
    getLuminance s =
      .num ((299 / 1000 * (r : ℚ) + 587 / 1000 * (g : ℚ) + 114 / 1000 * (b : ℚ)) / 255) := by
  unfold getLuminance hexAttempt rgbAttempt
  rw [hs] at hm ⊢
  simp [startsWithChars, hm, lumFormula]

/-- Claim C6 fails as stated: inputs outside the two accepted forms are NOT
    indeterminate.  The named color `red`, the 3-digit hex `#fff` and the
    empty string all get luminance 0, hence classify as dark
    (`isDarkColor` true), contradicting "classifying the input as neither
    dark nor light". -/
theorem classifier_malformed_counterexample :
    isDarkColor "red" = true ∧ isDarkColor "#fff" = true ∧ isDarkColor "" = true ∧
    isLightColor "red" = false := by
  have hred : getLuminance "red" = .num 0 := luminance_unprefixed "red" rfl rfl
  have hfff : getLuminance "#fff" = .num 0 := rfl
  have hemp : getLuminance "" = .num 0 := rfl
  exact ⟨(classify_zero _ hred).1, (classify_zero _ hfff).1, (classify_zero _ hemp).1,
         (classify_zero _ hred).2⟩

/-- Claim C6 as amended: the classifier accepts only 6-digit hex and
    `rgb(r, g, b)` and never throws (it is a total function), but every
    other input gets luminance 0 and classifies as DARK (`isDarkColor` true,
    `isLightColor` false) rather than indeterminate — this holds for every
    string not starting with `#` or `rgb`, and also for `#fff` and
    `rgba(...)`; the single exception is a `#` followed by exactly six
    characters whose slices fail to parse, which yields a NaN luminance and
    is then neither dark nor light. -/
theorem classifier_malformed_amended :
    (∀ c : String, startsWithChars ['#'] c.data = false →
      startsWithChars ['r', 'g', 'b'] c.data = false →
      getLuminance c = .num 0 ∧ isDarkColor c = true ∧ isLightColor c = false)
    ∧ isDarkColor "#fff" = true
    ∧ isDarkColor "rgba(18, 18, 18, 0.5)" = true
    ∧ isDarkColor "#zzzzzz" = false ∧ isLightColor "#zzzzzz" = false := by
  have hfff : getLuminance "#fff" = .num 0 := rfl
  have hrgba : getLuminance "rgba(18, 18, 18, 0.5)" = .num 0 := rfl
  have hzz : getLuminance "#zzzzzz" = .nan := rfl
  refine ⟨?_, (classify_zero _ hfff).1, (classify_zero _ hrgba).1,
          (classify_of_nan _ hzz).1, (classify_of_nan _ hzz).2⟩
  intro c h1 h2
  have h0 : getLuminance c = .num 0 := luminance_unprefixed c h1 h2
  exact ⟨h0, (classify_zero c h0).1, (classify_zero c h0).2⟩

theorem classifier_malformed_amended_witness :
    isDarkColor "red" = true :=
  (classifier_malformed_amended.1 "red" rfl rfl).2.1

/-- Claim C8: for well-formed colors the luminance is
    `(0.299r + 0.587g + 0.114b)/255` (stated for every `#`+6-characters
    string via the `parseInt` slices, and for every string whose `rgb(`
    pattern matches), a color is dark iff its luminance is strictly below
    1/2 (so luminance exactly 1/2 is not dark, i.e. light), and
    `#121212` is dark while `#ffffff` and `#808080` are not. -/
theorem classifier_luminance_threshold :
    (∀ (c : String) (q : ℚ), getLuminance c = .num q → (isDarkColor c = true ↔ q < 1 / 2))
    ∧ (∀ c : String, getLuminance c = .num (1 / 2) → isDarkColor c = false)
    ∧ (∀ (s : String) (c1 c2 c3 c4 c5 c6 : Char) (r g b : ℤ),
        s.data = '#' :: [c1, c2, c3, c4, c5, c6] →
        jsParseIntHex [c1, c2] = some r →
        jsParseIntHex [c3, c4] = some g →
        jsParseIntHex [c5, c6] = some b →
        getLuminance s =
          .num ((299 / 1000 * (r : ℚ) + 587 / 1000 * (g : ℚ) + 114 / 1000 * (b : ℚ)) / 255))
    ∧ (∀ (s : String) (rest : List Char) (r g b : ℕ),
        s.data = 'r' :: 'g' :: 'b' :: rest →
        searchRgb s.data = some (r, g, b) →
        getLuminance s =
          .num ((299 / 1000 * (r : ℚ) + 587 / 1000 * (g : ℚ) + 114 / 1000 * (b : ℚ)) / 255))
    ∧ isDarkColor "#121212" = true
    ∧ isDarkColor "#ffffff" = false
    ∧ isDarkColor "#808080" = false := by
  have h1 : getLuminance "#121212" =
      .num ((299 / 1000 * ((18 : ℤ) : ℚ) + 587 / 1000 * ((18 : ℤ) : ℚ) +
             114 / 1000 * ((18 : ℤ) : ℚ)) / 255) :=
    getLum_hex_formula "#121212" '1' '2' '1' '2' '1' '2' 18 18 18 rfl
      (by decide) (by decide) (by decide)
  have h2 : getLuminance "#ffffff" =
      .num ((299 / 1000 * ((255 : ℤ) : ℚ) + 587 / 1000 * ((255 : ℤ) : ℚ) +
             114 / 1000 * ((255 : ℤ) : ℚ)) / 255) :=
    getLum_hex_formula "#ffffff" 'f' 'f' 'f' 'f' 'f' 'f' 255 255 255 rfl
      (by decide) (by decide) (by decide)
  have h3 : getLuminance "#808080" =
      .num ((299 / 1000 * ((128 : ℤ) : ℚ) + 587 / 1000 * ((128 : ℤ) : ℚ) +
             114 / 1000 * ((128 : ℤ) : ℚ)) / 255) :=
    getLum_hex_formula "#808080" '8' '0' '8' '0' '8' '0' 128 128 128 rfl
      (by decide) (by decide) (by decide)
  refine ⟨isDark_true_iff, ?_, getLum_hex_formula, getLum_rgb_formula,
          (isDark_true_iff _ _ h1).mpr (by norm_num), ?_, ?_⟩
  · intro c h
    have hiff := isDark_true_iff c (1 / 2) h
    cases hdk : isDarkColor c
    · rfl
    · exact absurd (hiff.mp hdk) (by norm_num)
  · have hiff := isDark_true_iff _ _ h2
    cases hdk : isDarkColor "#ffffff"
    · rfl
    · exact absurd (hiff.mp hdk) (by norm_num)
  · have hiff := isDark_true_iff _ _ h3
    cases hdk : isDarkColor "#808080"
    · rfl
    · exact absurd (hiff.mp hdk) (by norm_num)

theorem classifier_luminance_threshold_witness :
    isDarkColor "rgb(18, 18, 18)" = true := by
  have h4 := classifier_luminance_threshold.2.2.2.1 "rgb(18, 18, 18)"
    "(18, 18, 18)".data 18 18 18 rfl (by decide)
  exact (classifier_luminance_threshold.1 _ _ h4).mpr (by norm_num)

/-
  Change-Monitor lemmas (shared helpers, then claims C3 and C4) and the
  storage-throw tolerance claim C10.
-/

theorem monStep_mutate_handled (s : MonitorState) (attr : String)
    (oldVal newVal : Option String)
    (h : handlerAttrs.contains attr = true) (hc : s.connected = true) :
    monStep s (.mutate attr oldVal newVal) =
      (⟨true, s.pending + 1⟩, [.themeChange attr oldVal newVal]) := by
  have hmem : attr ∈ handlerAttrs := by
    simpa using h
  have hmem2 : attr ∈ observerAttributeFilter := by
    fin_cases hmem <;> decide
  unfold monStep
  rw [hc]
  simp [hmem, hmem2]

theorem monRun_append (l1 l2 : List MonEvent) (s : MonitorState) :
    monRun s (l1 ++ l2) =
      ((monRun (monRun s l1).1 l2).1,
       (monRun s l1).2 ++ (monRun (monRun s l1).1 l2).2) := by
  induction l1 generalizing s with
  | nil => simp [monRun]
  | cons e t ih => simp [monRun, ih, List.append_assoc]

theorem monRun_mutates (attr : String) (oldVal newVal : Option String)
    (h : handlerAttrs.contains attr = true) :
    ∀ (n p : ℕ),
      monRun ⟨true, p⟩ (List.replicate n (.mutate attr oldVal newVal)) =
        (⟨true, p + n⟩, List.replicate n (.themeChange attr oldVal newVal)) := by
  intro n
  induction n with
  | zero => intro p; simp [monRun]
  | succ m ih =>
    intro p
    rw [List.replicate_succ, List.replicate_succ]
    have hstep := monStep_mutate_handled ⟨true, p⟩ attr oldVal newVal h rfl
    simp only [monRun, hstep, ih (p + 1)]
    simp [Prod.ext_iff]
    omega

theorem monRun_fires (c : Bool) :
    ∀ (n p : ℕ), n ≤ p →
      monRun ⟨c, p⟩ (List.replicate n .fireTimeout) =
        (⟨c, p - n⟩, List.replicate n .detectionUpdate) := by
  intro n
  induction n with
  | zero => intro p _; simp [monRun]
  | succ m ih =>
    intro p hp
    obtain ⟨q, rfl⟩ : ∃ q, p = q + 1 := ⟨p - 1, by omega⟩
    rw [List.replicate_succ, List.replicate_succ]
    have hstep : monStep ⟨c, q + 1⟩ .fireTimeout = (⟨c, q⟩, [.detectionUpdate]) := rfl
    simp only [monRun, hstep, ih q (by omega)]
    simp [Prod.ext_iff]

/-- Claim C3 fails as stated: the monitor does NOT coalesce mutations within
    a window.  Three rapid `class` mutations while observing produce six
    callback invocations (three raw, then three re-detections — one
    `setTimeout` per mutation, none cancelled), not two; and a mutation of
    the watched attribute `style` (which is in the observer's filter but not
    in the handler's list) produces zero callbacks, not two. -/
theorem monitor_two_callbacks_counterexample :
    ((monRun ⟨true, 0⟩ (List.replicate 3 (.mutate "class" none (some "dark")) ++
       List.replicate 3 .fireTimeout)).2).length = 6
    ∧ ¬(((monRun ⟨true, 0⟩ (List.replicate 3 (.mutate "class" none (some "dark")) ++
         List.replicate 3 .fireTimeout)).2).length = 2)
    ∧ (monRun ⟨true, 0⟩ [.mutate "style" none (some "x")]).2.length = 0 := by
  refine ⟨rfl, ?_, rfl⟩
  intro h
  exact absurd h (by decide)

/-- Claim C3 as amended: while observing, each attribute mutation whose name
    is in the handler's list {class, data-theme, data-mode, color-mode,
    data-bs-theme} (NOT style, which the observer reports but the handler
    ignores) triggers exactly two callback invocations — the raw mutation
    immediately, and one re-detection when its own 100 ms timeout fires; n
    rapid mutations therefore produce 2·n callbacks (no coalescing), and a
    style mutation produces none. -/
theorem monitor_callbacks_amended :
    (∀ (attr : String) (oldVal newVal : Option String) (n : ℕ),
      handlerAttrs.contains attr = true →
      (monRun ⟨true, 0⟩ (List.replicate n (.mutate attr oldVal newVal) ++
        List.replicate n .fireTimeout)).2 =
        List.replicate n (.themeChange attr oldVal newVal) ++
          List.replicate n .detectionUpdate)
    ∧ (∀ oldVal newVal : Option String,
        (monRun ⟨true, 0⟩ [.mutate "style" oldVal newVal]).2 = []) := by
  constructor
  · intro attr oldVal newVal n h
    rw [monRun_append, monRun_mutates attr oldVal newVal h n 0]
    have hf := monRun_fires true n (0 + n) (by omega)
    rw [hf]
  · intro oldVal newVal
    rfl

theorem monitor_callbacks_amended_witness :
    (monRun ⟨true, 0⟩ (List.replicate 3 (.mutate "class" none (some "dark")) ++
      List.replicate 3 .fireTimeout)).2 =
      List.replicate 3 (.themeChange "class" none (some "dark")) ++
        List.replicate 3 .detectionUpdate :=
  monitor_callbacks_amended.1 "class" none (some "dark") 3 rfl

/-- Claim C4 fails as stated: stopping does not cancel a pending
    re-detection.  After a `class` mutation followed immediately by
    `destroy()`, the already-scheduled timeout still fires and delivers a
    `detection-update` callback after stop returned; in particular a stopped
    monitor with one pending timeout still emits a callback. -/
theorem monitor_stop_counterexample :
    (monRun ⟨true, 0⟩ [.mutate "class" none (some "dark"), .destroyEv, .fireTimeout]).2 =
      [.themeChange "class" none (some "dark"), .detectionUpdate]
    ∧ (monRun ⟨false, 1⟩ [.fireTimeout]).2 ≠ [] := by
  constructor
  · rfl
  · intro h
    simp [monRun, monStep] at h

/-- Claim C4 as amended: `destroy()` is idempotent (a second call leaves the
    state unchanged and emits nothing) and after it no attribute mutation
    produces any callback, but it does NOT cancel a pending scheduled
    re-detection: a timeout scheduled before stop still fires its
    `detection-update` callback afterwards. -/
theorem monitor_stop_amended :
    (∀ s : MonitorState,
      monStep (monStep s .destroyEv).1 .destroyEv = ((monStep s .destroyEv).1, []))
    ∧ (∀ (s : MonitorState) (attr : String) (oldVal newVal : Option String),
        s.connected = false → (monStep s (.mutate attr oldVal newVal)).2 = [])
    ∧ (∀ p : ℕ, (monStep ⟨false, p + 1⟩ .fireTimeout).2 = [.detectionUpdate]) := by
  refine ⟨fun s => rfl, ?_, fun p => rfl⟩
  intro s attr oldVal newVal h
  unfold monStep
  rw [h]
  simp

theorem monitor_stop_amended_witness :
    (monStep (⟨false, 0⟩ : MonitorState) (.mutate "class" none (some "dark"))).2 = [] :=
  monitor_stop_amended.2.1 ⟨false, 0⟩ "class" none (some "dark") rfl

/-- Claim C10: a storage read that throws is caught and treated exactly as a
    null (non-firing) read — the whole detection result is unchanged when a
    throwing key is replaced by an absent one, so no thrown storage access
    aborts the remaining rules, and a Detection Result is always produced. -/
theorem collection_tolerates_storage_throw (ps : PageState) (k : String)
    (h : ps.storage k = none) :
    detect (eraseStorageKey ps k) = detect ps := by
  have h1 : storageRuleSignal (eraseStorageKey ps k).storage =
      storageRuleSignal ps.storage := by
    funext key
    show storageRuleSignal (fun k2 => if k2 == k then some none else ps.storage k2) key = _
    by_cases hk : key = k
    · subst hk
      simp [storageRuleSignal, h]
    · have hb : (key == k) = false := by simp [hk]
      simp [storageRuleSignal, hb]
  have h2 : storageThemeValue (eraseStorageKey ps k).storage =
      storageThemeValue ps.storage := by
    funext key
    show storageThemeValue (fun k2 => if k2 == k then some none else ps.storage k2) key = _
    by_cases hk : key = k
    · subst hk
      simp [storageThemeValue, h]
    · have hb : (key == k) = false := by simp [hk]
      simp [storageThemeValue, hb]
  have h3 : ∀ l, firstStorageTheme (eraseStorageKey ps k).storage l =
      firstStorageTheme ps.storage l := by
    intro l
    induction l with
    | nil => rfl
    | cons key rest ih =>
      unfold firstStorageTheme
      rw [h2, ih]
  unfold detect collectSignals checkLocalStorage getCurrentTheme
  rw [h1, h3]
  rfl

theorem collection_tolerates_storage_throw_witness :
    detect (eraseStorageKey throwingPage "theme") = detect throwingPage :=
  collection_tolerates_storage_throw throwingPage "theme" rfl

end DarkMode
